import Mathlib

/-!
Shallow embedding of the Sentinel crash-interception core:
`src/Sentinel/Bedrock/CrashInterceptor.cpp` (exception dispatch, address
sanitization, forensic message formatting, handler registration) and
`src/Sentinel/Utils/Logger.cpp` (the diagnostic sink: lazily initialized,
lock-serialized colored console output).

Machine integers (`uintptr_t`, `ULONG_PTR`, `unsigned long long`) are 64-bit
on the target platform and are embedded as `Nat` reduced modulo `2 ^ 64`
where the C++ semantics truncates.  The diagnostic sink's mutex serializes
all emit operations, so each emit operation is embedded as one atomic state
transition; a run of the sink is a fold of such transitions.
-/

namespace Sentinel

/-- 64-bit modulus of `uintptr_t` / `ULONG_PTR` on the target platform. -/
def UINTPTR_MOD : Nat := 2 ^ 64

/-! ## CrashInterceptor.cpp: constants (lines 13-24) -/

/-- `STATUS_GUARD_PAGE_VIOLATION 0x80000001L` (CrashInterceptor.cpp line 15). -/
def STATUS_GUARD_PAGE_VIOLATION : Nat := 0x80000001

/-- `STATUS_ACCESS_VIOLATION 0xC0000005L` (CrashInterceptor.cpp line 19). -/
def STATUS_ACCESS_VIOLATION : Nat := 0xC0000005

/-- `static constexpr uintptr_t PAGE_OFFSET_MASK = 0xFFFULL;`
(CrashInterceptor.cpp line 24). -/
def PAGE_OFFSET_MASK : Nat := 0xFFF

/-- `~PAGE_OFFSET_MASK` as a 64-bit `uintptr_t`: the bitwise complement of
`0xFFF` inside 64 bits. -/
def NOT_PAGE_OFFSET_MASK : Nat := UINTPTR_MOD - 1 - PAGE_OFFSET_MASK

/-- `reinterpret_cast<uintptr_t>(faultingAddress) & ~PAGE_OFFSET_MASK`
(CrashInterceptor.cpp lines 65 and 112): the faulting address, truncated to
the 64-bit pointer width, with the page-offset mask's bits cleared. -/
def sanitizeAddress (faultingAddress : Nat) : Nat :=
  (faultingAddress % UINTPTR_MOD) &&& NOT_PAGE_OFFSET_MASK

/-! ## `sprintf_s` formatting model

The handler formats into `char logBuffer[256]` with `sprintf_s`, which
returns the number of characters written on success and `-1` when the
formatted text (plus its terminator) does not fit the buffer. -/

/-- Size of `char logBuffer[256]` (CrashInterceptor.cpp lines 68 and 132). -/
def LOG_BUFFER_SIZE : Nat := 256

/-- `sprintf_s(buf, bufSize, ...)`: number of characters written when the
formatted string and its null terminator fit, `-1` otherwise. -/
def sprintf_s (bufSize : Nat) (formatted : String) : Int :=
  if formatted.length + 1 ≤ bufSize then (formatted.length : Int) else -1

/-- One hexadecimal digit as printed by `%X`: uppercase. -/
def hexDigit (n : Nat) : Char :=
  if n < 10 then Char.ofNat (48 + n) else Char.ofNat (55 + n)

/-- `%016llX` applied to a 64-bit value: sixteen uppercase hexadecimal
digits, zero-padded, most significant first. -/
def hex16 (v : Nat) : String :=
  String.mk (((List.range 16).reverse).map (fun i => hexDigit (v / 16 ^ i % 16)))

/-- The guard-page forensic message
`"[CRITICAL] Guard Page Violation Detected at 0x%016llX (page-aligned)!"`
(CrashInterceptor.cpp lines 69-71), applied to the sanitized address. -/
def gpMessage (sanitizedAddress : Nat) : String :=
  "[CRITICAL] Guard Page Violation Detected at 0x" ++ hex16 sanitizedAddress
    ++ " (page-aligned)!"

/-- `accessTypeStr` decoding (CrashInterceptor.cpp lines 115-129):
`0` is read, `1` is write, `8` is a DEP violation, anything else falls to
the generic default. -/
def accessTypeStr (accessType : Nat) : String :=
  if accessType = 0 then "Read from"
  else if accessType = 1 then "Write to"
  else if accessType = 8 then "DEP violation at"
  else "Access to"

/-- The access-violation forensic message
`"[CRITICAL] Access Violation! %s address 0x%016llX (page-aligned)"`
(CrashInterceptor.cpp lines 133-136). -/
def avMessage (accessType sanitizedAddress : Nat) : String :=
  "[CRITICAL] Access Violation! " ++ accessTypeStr accessType
    ++ " address 0x" ++ hex16 sanitizedAddress ++ " (page-aligned)"

/-! ## Exception records and the dispatch routine -/

/-- The fields of `EXCEPTION_RECORD` read by the handler: `ExceptionCode`
(a `DWORD`), `NumberParameters` (a `DWORD`), and the
`ExceptionInformation` array of `ULONG_PTR`, embedded as an index function. -/
structure EXCEPTION_RECORD where
  ExceptionCode : Nat
  NumberParameters : Nat
  ExceptionInformation : Nat → Nat

/-- `EXCEPTION_POINTERS`: the handler only reads the `ExceptionRecord`
pointer, embedded as `Option` (with `none` for a null pointer); the
`ContextRecord` field is never read by the routine. -/
structure EXCEPTION_POINTERS where
  ExceptionRecord : Option EXCEPTION_RECORD

/-- The two dispositions a vectored exception handler can return. -/
inductive Disposition where
  | EXCEPTION_CONTINUE_SEARCH
  | EXCEPTION_CONTINUE_EXECUTION
  deriving DecidableEq, Repr

/-- `CrashInterceptor::HandlerRoutine` (CrashInterceptor.cpp lines 41-154).
The input is the possibly-null `PEXCEPTION_POINTERS`; the output is the
returned disposition paired with the list of messages the routine passed to
`Utils::Logger::LogError`, in call order. -/
def HandlerRoutine (ExceptionInfo : Option EXCEPTION_POINTERS) :
    Disposition × List String :=
  match ExceptionInfo with
  | none => (.EXCEPTION_CONTINUE_SEARCH, [])
  | some info =>
    match info.ExceptionRecord with
    | none => (.EXCEPTION_CONTINUE_SEARCH, [])
    | some r =>
      let exceptionCode := r.ExceptionCode
      if exceptionCode = STATUS_GUARD_PAGE_VIOLATION then
        let faultingAddress : Nat :=
          if 2 ≤ r.NumberParameters then r.ExceptionInformation 1 else 0
        let sanitizedAddress := sanitizeAddress faultingAddress
        let logBuffer := gpMessage sanitizedAddress
        let result := sprintf_s LOG_BUFFER_SIZE logBuffer
        if 0 < result then
          (.EXCEPTION_CONTINUE_SEARCH, [logBuffer])
        else
          (.EXCEPTION_CONTINUE_SEARCH,
            ["[CRITICAL] Guard Page Violation Detected (formatting error)!"])
      else if exceptionCode = STATUS_ACCESS_VIOLATION then
        let accessType : Nat :=
          if 2 ≤ r.NumberParameters then r.ExceptionInformation 0 else 0
        let faultingAddress : Nat :=
          if 2 ≤ r.NumberParameters then r.ExceptionInformation 1 else 0
        let sanitizedAddress := sanitizeAddress faultingAddress
        let logBuffer := avMessage accessType sanitizedAddress
        let result := sprintf_s LOG_BUFFER_SIZE logBuffer
        if 0 < result then
          (.EXCEPTION_CONTINUE_SEARCH, [logBuffer])
        else
          (.EXCEPTION_CONTINUE_SEARCH,
            ["[CRITICAL] Access Violation (formatting error)!"])
      else
        (.EXCEPTION_CONTINUE_SEARCH, [])

/-! ## Handler registration (`CrashInterceptor::Initialize`, lines 26-39)

`AddVectoredExceptionHandler` is the host's registration API: it prepends or
appends the routine to the process-wide handler chain and returns a non-null
handle, or returns null on failure.  The chain is embedded as the list of
`(First, routine)` registrations in order; `osAccepts` is the host's
success/failure of the registration call. -/

/-- Identifier standing for the compiled-in `CrashInterceptor::HandlerRoutine`
callback passed to the registration API. -/
def HANDLER_ROUTINE_ID : Nat := 1

/-- The process-wide vectored-exception-handler chain: the `(First, routine)`
registrations, in registration order. -/
structure VEHChain where
  handlers : List (Nat × Nat)
  deriving DecidableEq, Repr

/-- Host registration API `AddVectoredExceptionHandler(First, Handler)`:
on success returns a fresh non-null handle and records the registration;
on failure returns null and leaves the chain unchanged. -/
def AddVectoredExceptionHandler (osAccepts : Bool) (first routineId : Nat)
    (chain : VEHChain) : Option Nat × VEHChain :=
  if osAccepts then
    (some (chain.handlers.length + 1),
      { handlers := chain.handlers ++ [(first, routineId)] })
  else
    (none, chain)

/-- `CrashInterceptor::Initialize` (CrashInterceptor.cpp lines 26-39):
registers `HandlerRoutine` with priority 1, reports failure through
`LogError` and success through `LogInfo`, and returns the boolean outcome.
The third component lists the sink calls the operation makes. -/
def CrashInterceptor.Initialize (osAccepts : Bool) (chain : VEHChain) :
    Bool × VEHChain × List String :=
  match AddVectoredExceptionHandler osAccepts 1 HANDLER_ROUTINE_ID chain with
  | (none, chain2) =>
    (false, chain2, ["Failed to register Vectored Exception Handler"])
  | (some _, chain2) =>
    (true, chain2, ["Crash Interceptor initialized successfully"])

/-! ## Logger.cpp: the Diagnostic Sink

`Logger` holds process-wide static state (`consoleHandle_`,
`errorConsoleHandle_`, `defaultAttributes_`, `errorDefaultAttributes_`,
`initialized_`), all mutated only under `consoleMutex_`.  The lock
serializes every `LogInfo`/`LogError` call, so each call is embedded as one
atomic transition of `LoggerState`; the host console is the read-only
`ConsoleEnv`.  Handles are integers with `0` for `nullptr` and `-1` for
`INVALID_HANDLE_VALUE`. -/

/-- A Windows `HANDLE`: `0` embeds `nullptr`, `-1` embeds
`INVALID_HANDLE_VALUE`. -/
abbrev HANDLE := Int

/-- `INVALID_HANDLE_VALUE`. -/
def INVALID_HANDLE_VALUE : HANDLE := -1

/-- `FOREGROUND_BLUE`. -/
def FOREGROUND_BLUE : Nat := 1

/-- `FOREGROUND_GREEN`. -/
def FOREGROUND_GREEN : Nat := 2

/-- `FOREGROUND_RED`. -/
def FOREGROUND_RED : Nat := 4

/-- `FOREGROUND_INTENSITY`. -/
def FOREGROUND_INTENSITY : Nat := 8

/-- `DEFAULT_CONSOLE_ATTRIBUTES` (Logger.cpp line 21): white text on black
background. -/
def DEFAULT_CONSOLE_ATTRIBUTES : Nat :=
  FOREGROUND_RED ||| FOREGROUND_GREEN ||| FOREGROUND_BLUE

/-- The host console environment read during sink initialization:
`GetStdHandle` results for the two channels and, for each, the
`GetConsoleScreenBufferInfo` outcome (`some wAttributes` on success). -/
structure ConsoleEnv where
  stdoutHandle : HANDLE
  stderrHandle : HANDLE
  stdoutBufferInfo : Option Nat
  stderrBufferInfo : Option Nat
  deriving DecidableEq, Repr

/-- The `Logger` static state (Logger.cpp lines 13-18). -/
structure LoggerState where
  consoleHandle : HANDLE
  errorConsoleHandle : HANDLE
  defaultAttributes : Nat
  errorDefaultAttributes : Nat
  initialized : Bool
  deriving DecidableEq, Repr

/-- The static initializers of Logger.cpp lines 13-18: null handles, zero
attributes, not initialized. -/
def initialLoggerState : LoggerState :=
  { consoleHandle := 0, errorConsoleHandle := 0, defaultAttributes := 0,
    errorDefaultAttributes := 0, initialized := false }

/-- `Logger::IsConsoleAvailable` (Logger.cpp lines 23-25). -/
def IsConsoleAvailable (handle : HANDLE) : Bool :=
  handle != INVALID_HANDLE_VALUE && handle != 0

/-- `Logger::Initialize` (Logger.cpp lines 27-65): does nothing when
`initialized_` is already set; otherwise caches both channel handles,
captures each channel's baseline attributes (falling back to
`DEFAULT_CONSOLE_ATTRIBUTES` when the channel is unavailable or the query
fails), and sets `initialized_`. -/
def Logger.Initialize (env : ConsoleEnv) (st : LoggerState) : LoggerState :=
  if st.initialized then st
  else
    let consoleHandle := env.stdoutHandle
    let errorConsoleHandle := env.stderrHandle
    let defaultAttributes :=
      if IsConsoleAvailable consoleHandle then
        match env.stdoutBufferInfo with
        | some wAttributes => wAttributes
        | none => DEFAULT_CONSOLE_ATTRIBUTES
      else DEFAULT_CONSOLE_ATTRIBUTES
    let errorDefaultAttributes :=
      if IsConsoleAvailable errorConsoleHandle then
        match env.stderrBufferInfo with
        | some wAttributes => wAttributes
        | none => DEFAULT_CONSOLE_ATTRIBUTES
      else DEFAULT_CONSOLE_ATTRIBUTES
    { consoleHandle := consoleHandle,
      errorConsoleHandle := errorConsoleHandle,
      defaultAttributes := defaultAttributes,
      errorDefaultAttributes := errorDefaultAttributes,
      initialized := true }

/-- The two output channels of the sink. -/
inductive Chan where
  | standardOut
  | standardErr
  deriving DecidableEq, Repr

/-- `Logger::LogInfo` (Logger.cpp lines 67-87), as the atomic transition
performed while `consoleMutex_` is held: lazily initializes on first use,
then writes `"[INFO] " << message` to standard output.  The result is the
updated state, the channel written, and the text of the emitted line. -/
def Logger.LogInfo (env : ConsoleEnv) (message : String) (st : LoggerState) :
    LoggerState × Chan × String :=
  let st2 := if !st.initialized then Logger.Initialize env st else st
  (st2, Chan.standardOut, "[INFO] " ++ message)

/-- `Logger::LogError` (Logger.cpp lines 89-110), as the atomic transition
performed while `consoleMutex_` is held: lazily initializes on first use,
then writes `"[ERROR] " << message` to standard error. -/
def Logger.LogError (env : ConsoleEnv) (message : String) (st : LoggerState) :
    LoggerState × Chan × String :=
  let st2 := if !st.initialized then Logger.Initialize env st else st
  (st2, Chan.standardErr, "[ERROR] " ++ message)

/-- One serialized sink call: either `LogInfo` or `LogError` with its
message. -/
inductive LogOp where
  | info (message : String)
  | error (message : String)
  deriving DecidableEq, Repr

/-- Dispatch one sink call to the corresponding operation. -/
def logStep (env : ConsoleEnv) (st : LoggerState) (op : LogOp) :
    LoggerState × Chan × String :=
  match op with
  | .info m => Logger.LogInfo env m st
  | .error m => Logger.LogError env m st

/-- The sink state after a lock-serialized sequence of sink calls. -/
def runLoggerState (env : ConsoleEnv) (st : LoggerState) (ops : List LogOp) :
    LoggerState :=
  ops.foldl (fun s op => (logStep env s op).1) st

/-! ## Concrete fixtures used by witnesses and counterexamples -/

/-- End-to-end scenario 2 of the spec: a general access violation with
parameters `[1, 0x0000000000000000]` (a write to address zero). -/
def scenario2Record : EXCEPTION_RECORD :=
  { ExceptionCode := STATUS_ACCESS_VIOLATION,
    NumberParameters := 2,
    ExceptionInformation := fun i => if i = 0 then 1 else 0 }

/-- A host console environment with both channels unavailable (both standard
handles null): the sink degrades to plain text. -/
def plainEnv : ConsoleEnv :=
  { stdoutHandle := 0, stderrHandle := 0,
    stdoutBufferInfo := none, stderrBufferInfo := none }

/-- A host console environment with both channels attached to a console. -/
def consoleEnv : ConsoleEnv :=
  { stdoutHandle := 7, stderrHandle := 11,
    stdoutBufferInfo := some 10, stderrBufferInfo := some 12 }

/-- A guard-page violation record whose parameter list is too short to
carry a faulting address (`NumberParameters = 1`). -/
def shortGPRecord : EXCEPTION_RECORD :=
  { ExceptionCode := STATUS_GUARD_PAGE_VIOLATION,
    NumberParameters := 1,
    ExceptionInformation := fun _ => 0xDEAD }

/-- An unrelated exception: `EXCEPTION_BREAKPOINT` (`0x80000003`). -/
def breakpointRecord : EXCEPTION_RECORD :=
  { ExceptionCode := 0x80000003,
    NumberParameters := 0,
    ExceptionInformation := fun _ => 0 }

/-- An access violation with the unrecognized access kind `255`. -/
def av255Record : EXCEPTION_RECORD :=
  { ExceptionCode := STATUS_ACCESS_VIOLATION,
    NumberParameters := 2,
    ExceptionInformation := fun i =>
      if i = 0 then 255 else if i = 1 then 0x7FF6A0001234 else 0 }

/-- An access violation record; its auxiliary array holds `99` at every
index past the two the handler may read. -/
def detRecordA : EXCEPTION_RECORD :=
  { ExceptionCode := STATUS_ACCESS_VIOLATION,
    NumberParameters := 2,
    ExceptionInformation := fun i =>
      if i = 0 then 1 else if i = 1 then 0x7FF6A0001234 else 99 }

/-- Like `detRecordA` but holding `0` at every index past the first two:
it agrees with `detRecordA` exactly on the fields the dispatch reads. -/
def detRecordB : EXCEPTION_RECORD :=
  { ExceptionCode := STATUS_ACCESS_VIOLATION,
    NumberParameters := 2,
    ExceptionInformation := fun i =>
      if i = 0 then 1 else if i = 1 then 0x7FF6A0001234 else 0 }

/-- A sink state that has already completed its first-use initialization. -/
def readyLoggerState : LoggerState :=
  { consoleHandle := 7, errorConsoleHandle := 11, defaultAttributes := 10,
    errorDefaultAttributes := 12, initialized := true }

end Sentinel

namespace Sentinel

/-! ## Formatting facts -/

/-- `%016llX` always prints exactly sixteen characters. -/
theorem hex16_length (v : Nat) : (hex16 v).length = 16 := by
  simp [hex16]

/-- The guard-page message has a fixed length of 78 characters. -/
theorem gpMessage_length (s : Nat) : (gpMessage s).length = 78 := by
  have h1 : "[CRITICAL] Guard Page Violation Detected at 0x".length = 46 := by decide
  have h2 : " (page-aligned)!".length = 16 := by decide
  simp [gpMessage, hex16_length, h1, h2]

/-- Every access-kind phrase is at most 16 characters long. -/
theorem accessTypeStr_length_le (k : Nat) : (accessTypeStr k).length ≤ 16 := by
  unfold accessTypeStr
  split_ifs <;> decide

/-- The access-violation message is the 71 fixed characters plus the
access-kind phrase. -/
theorem avMessage_length (k s : Nat) :
    (avMessage k s).length = 71 + (accessTypeStr k).length := by
  have h1 : "[CRITICAL] Access Violation! ".length = 29 := by decide
  have h2 : " address 0x".length = 11 := by decide
  have h3 : " (page-aligned)".length = 15 := by decide
  simp [avMessage, hex16_length, h1, h2, h3]
  omega

/-- Formatting the guard-page message into the 256-byte buffer always
succeeds (returns the fixed character count 78). -/
theorem sprintf_s_gpMessage_pos (s : Nat) :
    0 < sprintf_s LOG_BUFFER_SIZE (gpMessage s) := by
  unfold sprintf_s LOG_BUFFER_SIZE
  rw [if_pos (by rw [gpMessage_length]; omega)]
  rw [gpMessage_length]
  omega

/-- Formatting the access-violation message into the 256-byte buffer always
succeeds. -/
theorem sprintf_s_avMessage_pos (k s : Nat) :
    0 < sprintf_s LOG_BUFFER_SIZE (avMessage k s) := by
  have h1 := avMessage_length k s
  have h2 := accessTypeStr_length_le k
  unfold sprintf_s LOG_BUFFER_SIZE
  rw [if_pos (by omega)]
  omega

/-! ## The 64-bit mask characterization -/

/-- Conjunction of a 64-bit value with the complement mask `2^64 - 2^12`
clears exactly the low twelve bits. -/
theorem land_high_mask (x : Nat) (hx : x < 2 ^ 64) :
    x &&& (2 ^ 64 - 2 ^ 12) = x - x % 2 ^ 12 := by
  have hmask : (2 : Nat) ^ 64 - 2 ^ 12 = (2 ^ 52 - 1) <<< 12 := by
    rw [Nat.shiftLeft_eq]
    norm_num
  have hrhs : x - x % 2 ^ 12 = (x >>> 12) <<< 12 := by
    rw [Nat.shiftRight_eq_div_pow, Nat.shiftLeft_eq]
    have := Nat.mod_add_div x (2 ^ 12)
    have h4096 : (2 : Nat) ^ 12 = 4096 := by norm_num
    rw [h4096] at *
    omega
  rw [hmask, hrhs]
  apply Nat.eq_of_testBit_eq
  intro i
  rw [Nat.testBit_land, Nat.testBit_shiftLeft, Nat.testBit_shiftLeft,
    Nat.testBit_shiftRight, Nat.testBit_two_pow_sub_one]
  by_cases h12 : 12 ≤ i
  · by_cases h64 : i < 64
    · have e1 : 12 + (i - 12) = i := by omega
      have e2 : i - 12 < 52 := by omega
      simp [h12, e1, e2]
    · have hxi : Nat.testBit x i = false := by
        apply Nat.testBit_lt_two_pow
        calc x < 2 ^ 64 := hx
        _ ≤ 2 ^ i := Nat.pow_le_pow_right (by norm_num) (by omega)
      have e1 : 12 + (i - 12) = i := by omega
      have e2 : ¬ (i - 12 < 52) := by omega
      simp [h12, e1, e2, hxi]
  · simp [h12]

/-- The sanitization step `(a & ~PAGE_OFFSET_MASK)` equals the 64-bit
truncation of `a` with its page-offset remainder removed. -/
theorem sanitizeAddress_eq (a : Nat) :
    sanitizeAddress a = a % UINTPTR_MOD - a % UINTPTR_MOD % 4096 := by
  have h1 : a % UINTPTR_MOD < 2 ^ 64 := Nat.mod_lt _ (by norm_num [UINTPTR_MOD])
  have h2 : NOT_PAGE_OFFSET_MASK = 2 ^ 64 - 2 ^ 12 := by
    norm_num [NOT_PAGE_OFFSET_MASK, UINTPTR_MOD, PAGE_OFFSET_MASK]
  have h3 := land_high_mask (a % UINTPTR_MOD) h1
  unfold sanitizeAddress
  rw [h2, h3]
  norm_num

/-! ## Sink helper lemmas -/

/-- An emit operation on an already-initialized sink leaves the sink state
unchanged. -/
theorem logStep_state_of_initialized (env : ConsoleEnv) (st : LoggerState)
    (op : LogOp) (h : st.initialized = true) : (logStep env st op).1 = st := by
  cases op <;> simp [logStep, Logger.LogInfo, Logger.LogError, h]

/-- Any sequence of emit operations on an already-initialized sink leaves
the sink state unchanged. -/
theorem runLoggerState_of_initialized (env : ConsoleEnv) (st : LoggerState)
    (ops : List LogOp) (h : st.initialized = true) :
    runLoggerState env st ops = st := by
  induction ops with
  | nil => rfl
  | cons op ops ih =>
    show runLoggerState env (logStep env st op).1 ops = st
    rw [logStep_state_of_initialized env st op h]
    exact ih

/-- `Logger::Initialize` always leaves the initialized flag set. -/
theorem logger_init_flag (env : ConsoleEnv) (st : LoggerState) :
    (Logger.Initialize env st).initialized = true := by
  unfold Logger.Initialize
  split_ifs with h <;> simp_all

end Sentinel

namespace Sentinel

/-! ## Claim theorems -/

/-- C1: for every input to the dispatch operation — a null descriptor, a
descriptor with a null record, or any record with any exception code and
any parameters — `HandlerRoutine` returns `EXCEPTION_CONTINUE_SEARCH`;
no path returns `EXCEPTION_CONTINUE_EXECUTION` or any other disposition. -/
theorem dispatch_always_continue_search (info : Option EXCEPTION_POINTERS) :
    (HandlerRoutine info).1 = Disposition.EXCEPTION_CONTINUE_SEARCH := by
  rcases info with _ | ⟨_ | r⟩
  · rfl
  · rfl
  · simp only [HandlerRoutine]
    split_ifs <;> rfl

/-- C2 (counterexample): the claim fails for the power-of-two page size
`p = 8192 = 2^13` at faulting address `4096`: the code's sanitized address
is `4096`, which is not `4096` with its low 13 bits cleared and is not a
multiple of `8192` — the mask is hard-coded to the 4 KB page size. -/
theorem sanitize_fixed_mask_cex :
    (8192 : Nat) = 2 ^ 13
    ∧ sanitizeAddress 4096 = 4096
    ∧ sanitizeAddress 4096 ≠ 4096 - 4096 % 8192
    ∧ ¬ (8192 ∣ sanitizeAddress 4096) := by
  have h : sanitizeAddress 4096 = 4096 := by decide
  refine ⟨by norm_num, h, by rw [h]; omega, by rw [h]; omega⟩

/-- C2 (amended): with the page size hard-coded to 4 KB
(`PAGE_OFFSET_MASK = 4096 - 1`), the sanitized address equals the 64-bit
faulting address with its low 12 bits cleared, is at most the faulting
address, and is a multiple of 4096. -/
theorem sanitize_4k_aligned (a : Nat) :
    sanitizeAddress a = a % UINTPTR_MOD - a % UINTPTR_MOD % 4096
    ∧ sanitizeAddress a ≤ a
    ∧ 4096 ∣ sanitizeAddress a
    ∧ PAGE_OFFSET_MASK = 4096 - 1 := by
  have h := sanitizeAddress_eq a
  have hle : a % UINTPTR_MOD ≤ a := Nat.mod_le a UINTPTR_MOD
  refine ⟨h, by rw [h]; omega, by rw [h]; omega, by decide⟩

/-- C3 (counterexample): for the access violation with parameters
`[1, 0]` the dispatch passes exactly the claimed forensic text to the sink,
but the line the sink emits on its output channel is not equal to that
text: `LogError` prefixes `"[ERROR] "`. -/
theorem scenario2_emitted_line_cex :
    (HandlerRoutine (some ⟨some scenario2Record⟩)).2
      = ["[CRITICAL] Access Violation! Write to address 0x0000000000000000 (page-aligned)"]
    ∧ (Logger.LogError plainEnv
        "[CRITICAL] Access Violation! Write to address 0x0000000000000000 (page-aligned)"
        initialLoggerState).2.2
      ≠ "[CRITICAL] Access Violation! Write to address 0x0000000000000000 (page-aligned)" := by
  decide

/-- C3 (amended): for a general memory-access fault with parameters
`[1, 0x0000000000000000]`, the forensic message submitted to the sink
equals exactly
`[CRITICAL] Access Violation! Write to address 0x0000000000000000 (page-aligned)`,
and the line emitted on the error channel is that message prefixed by
`[ERROR] `, for every sink state and console environment. -/
theorem scenario2_emitted_line (st : LoggerState) (env : ConsoleEnv) :
    (HandlerRoutine (some ⟨some scenario2Record⟩)).2 = [avMessage 1 0]
    ∧ avMessage 1 0
      = "[CRITICAL] Access Violation! Write to address 0x0000000000000000 (page-aligned)"
    ∧ (Logger.LogError env (avMessage 1 0) st).2
      = (Chan.standardErr,
        "[ERROR] [CRITICAL] Access Violation! Write to address 0x0000000000000000 (page-aligned)") := by
  refine ⟨by decide, by decide, ?_⟩
  show (Chan.standardErr, "[ERROR] " ++ avMessage 1 0) = _
  decide

/-- C4: when the auxiliary parameter count is below two, the dispatch
result is independent of the entire auxiliary parameter array (it never
indexes into it), and the zero sentinel is the faulting address used for
sanitization and logging in both recognized branches. -/
theorem dispatch_short_params_zero_sentinel (r : EXCEPTION_RECORD)
    (g : Nat → Nat) (hshort : r.NumberParameters < 2) :
    HandlerRoutine (some ⟨some { r with ExceptionInformation := g }⟩) =
      HandlerRoutine (some ⟨some r⟩)
    ∧ HandlerRoutine (some ⟨some r⟩) =
        (if r.ExceptionCode = STATUS_GUARD_PAGE_VIOLATION then
          (Disposition.EXCEPTION_CONTINUE_SEARCH, [gpMessage (sanitizeAddress 0)])
        else if r.ExceptionCode = STATUS_ACCESS_VIOLATION then
          (Disposition.EXCEPTION_CONTINUE_SEARCH, [avMessage 0 (sanitizeAddress 0)])
        else (Disposition.EXCEPTION_CONTINUE_SEARCH, [])) := by
  have hn : ¬ (2 ≤ r.NumberParameters) := by omega
  have hgp := sprintf_s_gpMessage_pos (sanitizeAddress 0)
  have hav := sprintf_s_avMessage_pos 0 (sanitizeAddress 0)
  constructor
  · simp only [HandlerRoutine, hn, if_false, if_neg hn]
  · simp only [HandlerRoutine, if_neg hn]
    split_ifs <;> simp_all

/-- C4 (witness): the theorem applied to a guard-page record with
`NumberParameters = 1` and a divergent auxiliary array. -/
theorem dispatch_short_params_zero_sentinel_w :
    HandlerRoutine
        (some ⟨some { shortGPRecord with ExceptionInformation := fun _ => 0xBEEF }⟩) =
      HandlerRoutine (some ⟨some shortGPRecord⟩)
    ∧ HandlerRoutine (some ⟨some shortGPRecord⟩) =
        (if shortGPRecord.ExceptionCode = STATUS_GUARD_PAGE_VIOLATION then
          (Disposition.EXCEPTION_CONTINUE_SEARCH, [gpMessage (sanitizeAddress 0)])
        else if shortGPRecord.ExceptionCode = STATUS_ACCESS_VIOLATION then
          (Disposition.EXCEPTION_CONTINUE_SEARCH, [avMessage 0 (sanitizeAddress 0)])
        else (Disposition.EXCEPTION_CONTINUE_SEARCH, [])) :=
  dispatch_short_params_zero_sentinel shortGPRecord (fun _ => 0xBEEF) (by decide)

/-- C5: on an access violation carrying its parameters, the single emitted
message names the decoded access kind, and the decoding maps `0`, `1`, `8`
to their phrases and every other value to the generic phrase, without
failing. -/
theorem access_kind_mapping (r : EXCEPTION_RECORD) (k : Nat)
    (hcode : r.ExceptionCode = STATUS_ACCESS_VIOLATION)
    (hcount : 2 ≤ r.NumberParameters)
    (hk0 : k ≠ 0) (hk1 : k ≠ 1) (hk8 : k ≠ 8) :
    (HandlerRoutine (some ⟨some r⟩)).2 =
      [avMessage (r.ExceptionInformation 0)
        (sanitizeAddress (r.ExceptionInformation 1))]
    ∧ accessTypeStr 0 = "Read from"
    ∧ accessTypeStr 1 = "Write to"
    ∧ accessTypeStr 8 = "DEP violation at"
    ∧ accessTypeStr k = "Access to" := by
  have hgp : r.ExceptionCode ≠ STATUS_GUARD_PAGE_VIOLATION := by
    rw [hcode]; decide
  have hav := sprintf_s_avMessage_pos (r.ExceptionInformation 0)
    (sanitizeAddress (r.ExceptionInformation 1))
  refine ⟨?_, by decide, by decide, by decide, ?_⟩
  · simp only [HandlerRoutine, if_neg hgp, if_pos hcode, if_pos hcount, if_pos hav]
  · unfold accessTypeStr
    rw [if_neg hk0, if_neg hk1, if_neg hk8]

/-- C5 (witness): the theorem applied to the access violation with
unrecognized access kind `255`. -/
theorem access_kind_mapping_w :
    (HandlerRoutine (some ⟨some av255Record⟩)).2 =
      [avMessage (av255Record.ExceptionInformation 0)
        (sanitizeAddress (av255Record.ExceptionInformation 1))]
    ∧ accessTypeStr 0 = "Read from"
    ∧ accessTypeStr 1 = "Write to"
    ∧ accessTypeStr 8 = "DEP violation at"
    ∧ accessTypeStr 255 = "Access to" :=
  access_kind_mapping av255Record 255 (by decide) (by decide)
    (by decide) (by decide) (by decide)

/-- C6: a null exception descriptor, or a descriptor whose record pointer
is null, makes the dispatch return `EXCEPTION_CONTINUE_SEARCH` with no
emission at all: no classification and no sink call happens. -/
theorem dispatch_null_defers (info : Option EXCEPTION_POINTERS)
    (h : info = none ∨ ∃ ep, info = some ep ∧ ep.ExceptionRecord = none) :
    HandlerRoutine info = (Disposition.EXCEPTION_CONTINUE_SEARCH, []) := by
  rcases h with h | ⟨ep, hep, hrec⟩
  · rw [h]
    rfl
  · rw [hep]
    simp only [HandlerRoutine, hrec]

/-- C6 (witness): the theorem applied to the null descriptor. -/
theorem dispatch_null_defers_w :
    HandlerRoutine none = (Disposition.EXCEPTION_CONTINUE_SEARCH, []) :=
  dispatch_null_defers none (Or.inl rfl)

/-- C7: for every exception code other than the guard-page code and the
access-violation code, the dispatch returns the defer disposition with an
empty emission list: the sink is not called, so its emission count is
unchanged. -/
theorem dispatch_unrecognized_no_emission (r : EXCEPTION_RECORD)
    (hgp : r.ExceptionCode ≠ STATUS_GUARD_PAGE_VIOLATION)
    (hav : r.ExceptionCode ≠ STATUS_ACCESS_VIOLATION) :
    HandlerRoutine (some ⟨some r⟩)
      = (Disposition.EXCEPTION_CONTINUE_SEARCH, []) := by
  simp only [HandlerRoutine]
  rw [if_neg hgp, if_neg hav]

/-- C7 (witness): the theorem applied to a breakpoint exception
(`0x80000003`). -/
theorem dispatch_unrecognized_no_emission_w :
    HandlerRoutine (some ⟨some breakpointRecord⟩)
      = (Disposition.EXCEPTION_CONTINUE_SEARCH, []) :=
  dispatch_unrecognized_no_emission breakpointRecord (by decide) (by decide)

/-- C8 (counterexample): two successive successful calls of the
registration entry point both return success and leave two observers in
the process handler chain — the second call is neither idempotent nor
rejected. -/
theorem crashInterceptor_double_init_cex :
    (CrashInterceptor.Initialize true
      (CrashInterceptor.Initialize true ⟨[]⟩).2.1).1 = true
    ∧ (CrashInterceptor.Initialize true
        (CrashInterceptor.Initialize true ⟨[]⟩).2.1).2.1.handlers
      = [(1, HANDLER_ROUTINE_ID), (1, HANDLER_ROUTINE_ID)] := by
  decide

/-- C8 (amended): calling the registration entry point twice in sequence
returns success both times and installs a second observer; both observers
are registrations of the same priority-1 stateless routine, so the two
installed observers carry identical state. -/
theorem crashInterceptor_double_init (chain : VEHChain) :
    (CrashInterceptor.Initialize true chain).1 = true
    ∧ (CrashInterceptor.Initialize true
        (CrashInterceptor.Initialize true chain).2.1).1 = true
    ∧ (CrashInterceptor.Initialize true
        (CrashInterceptor.Initialize true chain).2.1).2.1.handlers
      = chain.handlers ++ [(1, HANDLER_ROUTINE_ID), (1, HANDLER_ROUTINE_ID)] := by
  simp [CrashInterceptor.Initialize, AddVectoredExceptionHandler]

/-- C9: the sink's cached state is established lazily by the first emit
operation and exactly once: an emit on an initialized state returns that
state unchanged, re-running initialization on an initialized state is the
identity, and after any nonempty lock-serialized sequence of emits from
the static initial state the sink state is exactly the one the first call
installed, with the initialized flag set. -/
theorem logger_lazy_init_once (env : ConsoleEnv) (st : LoggerState)
    (op : LogOp) (ops : List LogOp) (hinit : st.initialized = true) :
    (logStep env st op).1 = st
    ∧ Logger.Initialize env st = st
    ∧ runLoggerState env initialLoggerState (op :: ops)
      = Logger.Initialize env initialLoggerState
    ∧ (Logger.Initialize env initialLoggerState).initialized = true := by
  refine ⟨logStep_state_of_initialized env st op hinit, ?_, ?_,
    logger_init_flag env _⟩
  · unfold Logger.Initialize
    rw [if_pos hinit]
  · show runLoggerState env (logStep env initialLoggerState op).1 ops = _
    have h1 : (logStep env initialLoggerState op).1
        = Logger.Initialize env initialLoggerState := by
      cases op <;> simp [logStep, Logger.LogInfo, Logger.LogError, initialLoggerState]
    rw [h1]
    exact runLoggerState_of_initialized env _ ops (logger_init_flag env _)

/-- C9 (witness): the theorem applied to a console environment, an
already-initialized sink state, and a one-call sequence. -/
theorem logger_lazy_init_once_w :
    (logStep consoleEnv readyLoggerState (LogOp.info "x")).1 = readyLoggerState
    ∧ Logger.Initialize consoleEnv readyLoggerState = readyLoggerState
    ∧ runLoggerState consoleEnv initialLoggerState [LogOp.info "x"]
      = Logger.Initialize consoleEnv initialLoggerState
    ∧ (Logger.Initialize consoleEnv initialLoggerState).initialized = true :=
  logger_lazy_init_once consoleEnv readyLoggerState (LogOp.info "x") [] (by decide)

/-- C10: the dispatch is a pure function of the exception code, the
parameter count and the first two auxiliary parameters: two records
agreeing on those four observables produce the same disposition and the
same emitted forensic text. -/
theorem dispatch_deterministic (r1 r2 : EXCEPTION_RECORD)
    (hcode : r1.ExceptionCode = r2.ExceptionCode)
    (hcount : r1.NumberParameters = r2.NumberParameters)
    (h0 : r1.ExceptionInformation 0 = r2.ExceptionInformation 0)
    (h1 : r1.ExceptionInformation 1 = r2.ExceptionInformation 1) :
    HandlerRoutine (some ⟨some r1⟩) = HandlerRoutine (some ⟨some r2⟩) := by
  simp only [HandlerRoutine, hcode, hcount, h0, h1]

/-- C10 (witness): the theorem applied to two records that differ in the
auxiliary array beyond index 1 but agree on the observables. -/
theorem dispatch_deterministic_w :
    HandlerRoutine (some ⟨some detRecordA⟩)
      = HandlerRoutine (some ⟨some detRecordB⟩) :=
  dispatch_deterministic detRecordA detRecordB (by decide) (by decide)
    (by decide) (by decide)

end Sentinel
